import Mathlib

/-!
Verification of the Entra OAuth token verify/exchange core of the
repository (src/server.py and src/example-obo/server.py).

Shallow embedding of the two verifier strategies, the scope normalizer,
the on-behalf-of (OBO) exchange and the shared downstream-client lifecycle
of the repository (src/server.py and src/example-obo/server.py), with
theorems settling the specification claims about it.

Python strings are Lean `String`; Python `None`-able values are `Option`;
a Python function that may raise an exception past its boundary returns
`PyOutcome`; JSON claim maps are structures with `Option` fields matching
the provider token format the code consumes.
-/

/-- Python `s.split()` on spaces: splits a space-delimited string into its
non-empty words (accumulator holds the current word reversed).
Models the space-delimited `scp` claim splitting in both servers. -/
def pySplitAux : List Char → List Char → List String
  | [], acc => if acc.isEmpty then [] else [String.mk acc.reverse]
  | c :: cs, acc =>
    if c = ' ' then
      if acc.isEmpty then pySplitAux cs [] else String.mk acc.reverse :: pySplitAux cs []
    else
      pySplitAux cs (c :: acc)

/-- Python `s.split()` for a space-delimited scope string: `"".split() = []`,
empty runs of separators produce no entries. -/
def pySplit (s : String) : List String :=
  pySplitAux s.data []

/-- Python `"/" in s`: the scope string contains the namespace separator. -/
def hasSlash (s : String) : Bool :=
  s.data.contains '/'

/-- The per-scope normalization expression of
`AzureJWTVerifier._extract_scopes` (src/example-obo/server.py line 102):
`s if "/" in s else f"ns/s"`. Qualifies a short-form scope with the
namespace `ns`; an already-qualified scope is returned unchanged. -/
def normalizeScope (ns : String) (s : String) : String :=
  if hasSlash s then s else ns ++ "/" ++ s

/-! Claims-only strategy (src/server.py, `GraphTokenVerifier`) -/

/-- The JWT payload claims consulted by the two servers, in the shape the
Microsoft identity provider emits (`scp` is a space-delimited string). -/
structure Claims where
  exp : Option Int
  aud : Option String
  iss : Option String
  scp : Option String
  appid : Option String
  azp : Option String
deriving DecidableEq

/-- An inbound bearer token for the claims-only strategy: the raw string
plus its decoded payload (`none` when the string is not a decodable JWT). -/
structure GraphToken where
  raw : String
  payload : Option Claims
deriving DecidableEq

/-- The `pyjwt` error classes that `pyjwt.decode` can raise under the
options used in `GraphTokenVerifier.verify_token`; all extend
`PyJWTError` and are caught there. -/
inductive PyJWTError where
  | decodeError
  | missingRequiredClaim
  | expiredSignature
  | invalidIssuer
  | invalidAudience
deriving DecidableEq

/-- `pyjwt.decode(token, key=None, algorithms=["RS256"], audience, issuer,
options=...)` as called at src/server.py lines 55-68: signature
verification disabled, `exp`/`aud`/`iss` required and verified.
PyJWT treats a token as expired when `exp <= now` (RFC 7519: the current
time must be strictly before `exp`), with zero leeway here. Issuer may be
a list; the claim issuer must be a member. -/
def pyjwtDecode (audience : String) (issuers : List String) (now : Int)
    (t : GraphToken) : Except PyJWTError Claims :=
  match t.payload with
  | none => .error .decodeError
  | some c =>
    match c.exp, c.aud, c.iss with
    | some e, some a, some i =>
      if e ≤ now then .error .expiredSignature
      else if ¬ issuers.contains i then .error .invalidIssuer
      else if a ≠ audience then .error .invalidAudience
      else .ok c
    | _, _, _ => .error .missingRequiredClaim

/-- The `AccessToken` record constructed by `GraphTokenVerifier.verify_token`
on success (src/server.py lines 80-86). -/
structure AccessToken where
  token : String
  client_id : String
  scopes : List String
  expires_at : Int
  claims : Claims
deriving DecidableEq

/-- Configuration of `GraphTokenVerifier` (src/server.py lines 39-48):
audience, issuer allow-list, required scopes. -/
structure GraphVerifierConfig where
  audience : String
  issuers : List String
  required_scopes : List String
deriving DecidableEq

/-- Python truthiness of `a or b` for an optional string `a`:
`None` and the empty string fall through to `b`. -/
def pyOrStr (a : Option String) (b : String) : String :=
  match a with
  | some s => if s = "" then b else s
  | none => b

/-- `set(claims.get("scp", "").split())` (src/server.py line 74):
the token scope set of the claims-only strategy. -/
def graphTokenScopes (c : Claims) : List String :=
  (pySplit (c.scp.getD "")).dedup

/-- `GraphTokenVerifier.verify_token` (src/server.py lines 50-86):
empty token rejected; `pyjwt` claim validation with any `PyJWTError`
caught and turned into `None`; AND-logic required-scope check
(`missing = set(required) - token_scopes`); on success an `AccessToken`
with `client_id = appid or azp or "unknown"` under Python truthiness. -/
def verifyToken (cfg : GraphVerifierConfig) (now : Int) (t : GraphToken) :
    Option AccessToken :=
  if t.raw = "" then none
  else
    match pyjwtDecode cfg.audience cfg.issuers now t with
    | .error _ => none
    | .ok c =>
      let tokenScopes := graphTokenScopes c
      let missing := cfg.required_scopes.filter (fun r => ! tokenScopes.contains r)
      if missing ≠ [] then none
      else some {
        token := t.raw
        client_id := pyOrStr c.appid (pyOrStr c.azp "unknown")
        scopes := tokenScopes
        expires_at := c.exp.getD 0
        claims := c }

/-! Signature-verified strategy (src/example-obo/server.py, `AzureJWTVerifier`) -/

/-- An inbound token for the signature-verified strategy: raw string,
whether its signature verifies against the published key set, and the
decoded payload (`none` when undecodable). -/
structure JwtToken where
  raw : String
  sigValid : Bool
  payload : Option Claims
deriving DecidableEq

/-- Configuration of `AzureJWTVerifier` (src/example-obo/server.py
lines 139-146): issuer allow-list, audience, required scopes and the
scope namespace used for qualification. -/
structure AzureVerifierConfig where
  issuers : List String
  audience : String
  required_scopes : List String
  ns : String
deriving DecidableEq

/-- Modelled from the spec: the base scope extraction of fastmcp's
`JWTVerifier._extract_scopes` (the library superclass is not part of this
repository). Per §4.3 step (5): "extract the scope claim (a
space-delimited string)". -/
def baseExtractScopes (c : Claims) : List String :=
  pySplit (c.scp.getD "")

/-- `AzureJWTVerifier._extract_scopes` (src/example-obo/server.py
lines 98-104): base extraction, then, when a namespace is configured,
each scope is normalized via `normalizeScope`. -/
def azureExtractScopes (cfg : AzureVerifierConfig) (c : Claims) : List String :=
  let scopes := baseExtractScopes c
  if cfg.ns ≠ "" then scopes.map (normalizeScope cfg.ns) else scopes

/-- The principal produced by the signature-verified strategy on success. -/
structure AzurePrincipal where
  token : String
  scopes : List String
  expires_at : Int
deriving DecidableEq

/-- Modelled from the spec: fastmcp's `JWTVerifier.load_access_token`
(the library superclass is not part of this repository), per §4.3
signature-verified strategy steps (1)-(5): verify the signature; check
expiry against current time with no grace window; audience equals the
configured value; issuer in the allow-list; normalized scope set a
superset of the required scopes. Any failed step yields `none`; on
success a principal carrying the normalized scope set. The scope
extraction hook is the subclass override `azureExtractScopes`. -/
def jwtLoadAccessToken (cfg : AzureVerifierConfig) (now : Int)
    (t : JwtToken) : Option AzurePrincipal :=
  match t.payload with
  | none => none
  | some c =>
    if ¬ t.sigValid then none
    else
      match c.exp, c.aud, c.iss with
      | some e, some a, some i =>
        if e < now then none
        else if a ≠ cfg.audience then none
        else if ¬ cfg.issuers.contains i then none
        else
          let scopes := azureExtractScopes cfg c
          if cfg.required_scopes.all (fun r => scopes.contains r) then
            some { token := t.raw, scopes := scopes, expires_at := e }
          else none
      | _, _, _ => none

/-- `AzureJWTVerifier.load_access_token` (src/example-obo/server.py
lines 106-136): decodes the claims for debug logging inside a
`try/except` that never influences the decision, then delegates to the
superclass; the result (principal or `None`) is returned unchanged. -/
def azureLoadAccessToken (cfg : AzureVerifierConfig) (now : Int)
    (t : JwtToken) : Option AzurePrincipal :=
  jwtLoadAccessToken cfg now t

/-! OBO exchange (src/example-obo/server.py, `_obo_exchange`) -/

/-- The MSAL `acquire_token_on_behalf_of` response dictionary, restricted
to the keys `_obo_exchange` reads: `access_token`, `error`,
`error_description` (`none` = key absent). -/
structure MsalResult where
  access_token : Option String
  error : Option String
  error_description : Option String
deriving DecidableEq

/-- Outcome of a Python call that may raise: a returned value, or an
exception propagating past the function boundary with its message. -/
inductive PyOutcome (α : Type) where
  | ok (a : α)
  | raised (msg : String)
deriving DecidableEq

/-- Python `str(x)` for an optional string: `None` prints as `"None"`,
as interpolated by the f-string in the `RuntimeError` message. -/
def pyStr (a : Option String) : String :=
  match a with
  | some s => s
  | none => "None"

/-- The `RuntimeError` message raised by `_obo_exchange`
(src/example-obo/server.py line 171). -/
def oboFailMsg (e d : Option String) : String :=
  "OBO token exchange failed: " ++ pyStr e ++ " " ++ pyStr d

/-- `_obo_exchange` applied to the provider response
(src/example-obo/server.py lines 160-172): if `access_token` is absent
it RAISES `RuntimeError` with the provider error code and description;
otherwise it returns the access token string. -/
def oboExchange (r : MsalResult) : PyOutcome String :=
  match r.access_token with
  | some t => .ok t
  | none => .raised (oboFailMsg r.error r.error_description)

/-! Shared downstream client lifecycle (src/example-obo/server.py) -/

/-- State of the module-global `_graph_client` handle, instrumented with
construction and release counters (`created` doubles as the next fresh
client identifier). -/
structure GraphClientState where
  handle : Option Nat
  created : Nat
  released : Nat
deriving DecidableEq

/-- The state at process start: no client constructed. -/
def initialClientState : GraphClientState :=
  { handle := none, created := 0, released := 0 }

/-- `_get_graph_client` (src/example-obo/server.py lines 63-67): lazily
constructs the shared client on first use, otherwise returns the
existing handle. -/
def getGraphClient (s : GraphClientState) : GraphClientState × Nat :=
  match s.handle with
  | some c => (s, c)
  | none =>
    ({ handle := some s.created, created := s.created + 1, released := s.released },
     s.created)

/-- `_close_graph_client` (src/example-obo/server.py lines 70-82): a
no-op when no client exists; otherwise releases (`aclose`) the client
once and clears the handle. -/
def closeGraphClient (s : GraphClientState) : GraphClientState :=
  match s.handle with
  | none => s
  | some _ =>
    { handle := none, created := s.created, released := s.released + 1 }

def demoAudience : String := "00000003-0000-0000-c000-000000000000"

def demoIssuer : String := "https://sts.windows.net/tenant/"

def demoConfig : GraphVerifierConfig :=
  { audience := demoAudience, issuers := [demoIssuer],
    required_scopes := ["User.Read", "Mail.Read"] }

def validClaims : Claims :=
  { exp := some 4600, aud := some demoAudience, iss := some demoIssuer,
    scp := some "User.Read Mail.Read", appid := some "client-app", azp := none }

def expiredClaims : Claims := { validClaims with exp := some 999 }

def shortScopeClaims : Claims := { validClaims with scp := some "User.Read" }

def noClientClaims : Claims := { validClaims with appid := none, azp := none }

def expiredToken : GraphToken := { raw := "tok-expired", payload := some expiredClaims }

def shortScopeToken : GraphToken := { raw := "tok-short", payload := some shortScopeClaims }

def noClientToken : GraphToken := { raw := "tok-noclient", payload := some noClientClaims }

def emptyRawToken : GraphToken := { raw := "", payload := some validClaims }

def azureDemoConfig : AzureVerifierConfig :=
  { issuers := ["https://login.microsoftonline.com/tenant/v2.0"],
    audience := "client-id",
    required_scopes := ["api://client-id/access_as_user"],
    ns := "api://client-id" }

def azureDemoClaims : Claims :=
  { exp := some 4600, aud := some "client-id",
    iss := some "https://login.microsoftonline.com/tenant/v2.0",
    scp := some "access_as_user", appid := none, azp := none }

def azureDemoToken : JwtToken :=
  { raw := "jwt", sigValid := true, payload := some azureDemoClaims }

def azureDemoPrincipal : AzurePrincipal :=
  { token := "jwt", scopes := ["api://client-id/access_as_user"], expires_at := 4600 }

def oboErrorResponse : MsalResult :=
  { access_token := none, error := some "invalid_grant",
    error_description := some "AADSTS50013 assertion audience mismatch" }

def oboEmptyResponse : MsalResult :=
  { access_token := none, error := none, error_description := none }

def oboBothFieldsResponse : MsalResult :=
  { access_token := some "downstream-token", error := some "interaction_required",
    error_description := some "stray error alongside a token" }

theorem data_append (a b : String) : (a ++ b).data = a.data ++ b.data := rfl

theorem hasSlash_qualified (ns s : String) : hasSlash (ns ++ "/" ++ s) = true := by
  simp [hasSlash, data_append]

theorem normalizeScope_idem (ns s : String) :
    normalizeScope ns (normalizeScope ns s) = normalizeScope ns s := by
  by_cases h : hasSlash s
  · simp [normalizeScope, h]
  · simp [normalizeScope, h, hasSlash_qualified]

theorem pyjwtDecode_ok_iff (a : String) (ii : List String) (now : Int)
    (t : GraphToken) (c : Claims) :
    pyjwtDecode a ii now t = .ok c ↔
      (t.payload = some c ∧
        (∃ e, c.exp = some e ∧ now < e) ∧
        (∃ i, c.iss = some i ∧ i ∈ ii) ∧
        c.aud = some a) := by
  obtain ⟨raw, payload⟩ := t
  cases payload with
  | none => simp [pyjwtDecode]
  | some c' =>
    obtain ⟨ce, ca, ci, cs, cap, caz⟩ := c'
    cases ce with
    | none =>
      simp [pyjwtDecode]
      rintro rfl
      simp
    | some e =>
      cases ca with
      | none =>
        simp [pyjwtDecode]
        rintro rfl
        simp
      | some av =>
        cases ci with
        | none =>
          simp [pyjwtDecode]
          rintro rfl
          simp
        | some iv =>
          by_cases h1 : e ≤ now
          · simp [pyjwtDecode, h1]
            rintro rfl
            simp
            omega
          · by_cases h2 : iv ∈ ii
            · by_cases h3 : av = a
              · subst h3
                simp [pyjwtDecode, h1, h2]
                rintro rfl
                exact ⟨⟨e, rfl, by omega⟩, ⟨iv, rfl, h2⟩, rfl⟩
              · simp [pyjwtDecode, h1, h2, h3]
                rintro rfl
                simp
                exact fun _ _ => h3
            · simp [pyjwtDecode, h1, h2]
              rintro rfl
              simp
              exact fun _ hm => absurd hm h2


theorem verifyToken_some_iff (cfg : GraphVerifierConfig) (now : Int)
    (t : GraphToken) (p : AccessToken) :
    verifyToken cfg now t = some p ↔
      (t.raw ≠ "" ∧ ∃ c, pyjwtDecode cfg.audience cfg.issuers now t = .ok c ∧
        (∀ r ∈ cfg.required_scopes, r ∈ graphTokenScopes c) ∧
        p = { token := t.raw
              client_id := pyOrStr c.appid (pyOrStr c.azp "unknown")
              scopes := graphTokenScopes c
              expires_at := c.exp.getD 0
              claims := c }) := by
  unfold verifyToken
  by_cases hr : t.raw = ""
  · simp [hr]
  · cases hd : pyjwtDecode cfg.audience cfg.issuers now t with
    | error err => simp [hr, hd]
    | ok c =>
      simp only [hr, ite_false, if_neg, hd]
      by_cases hm : cfg.required_scopes.filter
          (fun r => ! (graphTokenScopes c).contains r) = []
      · have hmem : ∀ r ∈ cfg.required_scopes, r ∈ graphTokenScopes c := by
          rw [List.filter_eq_nil_iff] at hm
          intro r hr2
          simpa using hm r hr2
        simp only [hm, ne_eq, not_true_eq_false, if_false, Option.some.injEq]
        constructor
        · rintro rfl
          exact ⟨hr, c, rfl, hmem, rfl⟩
        · rintro ⟨-, c2, hc2, -, hp⟩
          rw [Except.ok.injEq] at hc2
          subst hc2
          exact hp.symm
      · rw [if_pos hm]
        constructor
        · intro h
          exact Option.noConfusion h
        · rintro ⟨-, c2, hc2, hmem, -⟩
          exfalso
          rw [Except.ok.injEq] at hc2
          subst hc2
          obtain ⟨x, hx⟩ := List.exists_mem_of_ne_nil _ hm
          rw [List.mem_filter] at hx
          have := hmem x hx.1
          simp at hx
          exact hx.2 this

theorem azureLoad_some_iff (cfg : AzureVerifierConfig) (now : Int)
    (t : JwtToken) (p : AzurePrincipal) :
    azureLoadAccessToken cfg now t = some p ↔
      ∃ c e i, t.payload = some c ∧ t.sigValid = true ∧
        c.exp = some e ∧ now ≤ e ∧ c.aud = some cfg.audience ∧
        c.iss = some i ∧ i ∈ cfg.issuers ∧
        (∀ r ∈ cfg.required_scopes, r ∈ azureExtractScopes cfg c) ∧
        p = { token := t.raw, scopes := azureExtractScopes cfg c, expires_at := e } := by
  obtain ⟨raw, sv, payload⟩ := t
  cases payload with
  | none => simp [azureLoadAccessToken, jwtLoadAccessToken]
  | some c =>
    obtain ⟨ce, ca, ci, cs, cap, caz⟩ := c
    cases sv with
    | false => simp [azureLoadAccessToken, jwtLoadAccessToken]
    | true =>
      cases ce with
      | none => simp [azureLoadAccessToken, jwtLoadAccessToken]
      | some e =>
        cases ca with
        | none => simp [azureLoadAccessToken, jwtLoadAccessToken]
        | some av =>
          cases ci with
          | none => simp [azureLoadAccessToken, jwtLoadAccessToken]
          | some iv =>
            have hsig : ¬ ¬ True := not_not_intro trivial
            simp only [azureLoadAccessToken, jwtLoadAccessToken]
            rw [if_neg hsig]
            by_cases h1 : e < now
            · simp [h1]
            · by_cases h2 : av = cfg.audience
              · subst h2
                have hnaud : ¬ (cfg.audience ≠ cfg.audience) := fun hne => hne rfl
                by_cases h3 : iv ∈ cfg.issuers
                · have hci : ¬ ¬ cfg.issuers.contains iv = true :=
                    not_not_intro (by simpa using h3)
                  by_cases h4 : (AzureVerifierConfig.required_scopes cfg).all
                      (fun r => (azureExtractScopes cfg
                        ⟨some e, some cfg.audience, some iv, cs, cap, caz⟩).contains r) = true
                  · rw [if_neg h1, if_neg hnaud, if_neg hci, if_pos h4]
                    rw [List.all_eq_true] at h4
                    simp only [Option.some.injEq]
                    constructor
                    · rintro rfl
                      refine ⟨_, e, iv, rfl, trivial, rfl, by omega, rfl, rfl, h3, ?_, rfl⟩
                      intro r hr2
                      simpa using h4 r hr2
                    · rintro ⟨c2, e2, i2, hc2, -, he2, -, -, -, -, -, hp⟩
                      subst hc2
                      simp only [Option.some.injEq] at he2
                      subst he2
                      exact hp.symm
                  · rw [if_neg h1, if_neg hnaud, if_neg hci, if_neg h4]
                    constructor
                    · intro h
                      exact Option.noConfusion h
                    · rintro ⟨c2, e2, i2, hc2, -, he2, -, -, -, -, hmem, -⟩
                      exfalso
                      rw [Option.some.injEq] at hc2
                      subst hc2
                      apply h4
                      rw [List.all_eq_true]
                      intro r hr2
                      simpa using hmem r hr2
                · rw [if_neg h1, if_neg hnaud,
                    if_pos (by simpa using h3)]
                  constructor
                  · intro h
                    exact Option.noConfusion h
                  · rintro ⟨c2, e2, i2, hc2, -, -, -, -, hi2, hmem2, -, -⟩
                    exfalso
                    rw [Option.some.injEq] at hc2
                    subst hc2
                    simp only [Option.some.injEq] at hi2
                    subst hi2
                    exact h3 hmem2
              · rw [if_neg h1, if_pos h2]
                constructor
                · intro h
                  exact Option.noConfusion h
                · rintro ⟨c2, e2, i2, hc2, -, -, -, ha2, -⟩
                  exfalso
                  rw [Option.some.injEq] at hc2
                  subst hc2
                  simp only [Option.some.injEq] at ha2
                  exact h2 ha2

lemma verifyToken_none_of_decode_error (cfg : GraphVerifierConfig) (now : Int)
    (t : GraphToken) (err : PyJWTError)
    (hd : pyjwtDecode cfg.audience cfg.issuers now t = .error err) :
    verifyToken cfg now t = none := by
  unfold verifyToken
  by_cases hr : t.raw = ""
  · simp [hr]
  · rw [if_neg hr, hd]

lemma verifyToken_none_of_missing_scope (cfg : GraphVerifierConfig) (now : Int)
    (t : GraphToken) (c : Claims) (r : String) (hp : t.payload = some c)
    (hr : r ∈ cfg.required_scopes) (hn : r ∉ graphTokenScopes c) :
    verifyToken cfg now t = none := by
  cases hv : verifyToken cfg now t with
  | none => rfl
  | some p =>
    exfalso
    rw [verifyToken_some_iff] at hv
    obtain ⟨-, c2, hd, hmem, -⟩ := hv
    rw [pyjwtDecode_ok_iff] at hd
    obtain ⟨hp2, -, -, -⟩ := hd
    rw [hp, Option.some.injEq] at hp2
    subst hp2
    exact hn (hmem r hr)

lemma azureLoad_none_of_missing_scope (cfg : AzureVerifierConfig) (now : Int)
    (t : JwtToken) (c : Claims) (r : String) (hp : t.payload = some c)
    (hr : r ∈ cfg.required_scopes) (hn : r ∉ azureExtractScopes cfg c) :
    azureLoadAccessToken cfg now t = none := by
  cases hv : azureLoadAccessToken cfg now t with
  | none => rfl
  | some p =>
    exfalso
    rw [azureLoad_some_iff] at hv
    obtain ⟨c2, e2, i2, hp2, -, -, -, -, -, -, hmem, -⟩ := hv
    rw [hp, Option.some.injEq] at hp2
    subst hp2
    exact hn (hmem r hr)

lemma azureLoad_none_of_no_payload (cfg : AzureVerifierConfig) (now : Int)
    (t : JwtToken) (hp : t.payload = none) :
    azureLoadAccessToken cfg now t = none := by
  unfold azureLoadAccessToken jwtLoadAccessToken
  rw [hp]

lemma azureLoad_none_of_bad_sig (cfg : AzureVerifierConfig) (now : Int)
    (t : JwtToken) (hs : t.sigValid = false) :
    azureLoadAccessToken cfg now t = none := by
  cases hp : t.payload with
  | none => exact azureLoad_none_of_no_payload cfg now t hp
  | some c =>
    unfold azureLoadAccessToken jwtLoadAccessToken
    rw [hp, hs]
    simp

/-- C1: verification in either strategy never raises past its boundary:
every call returns `none` (rejection) or `some` principal; a `pyjwt`
validation error (malformed, expired, wrong audience, wrong issuer) is
caught and becomes `none`; a missing required scope becomes `none`; in
the signature-verified strategy an undecodable payload or an invalid
signature becomes `none`. -/
theorem claim_C1_verify_never_raises :
    (∀ cfg now t, verifyToken cfg now t = none ∨ ∃ p, verifyToken cfg now t = some p) ∧
    (∀ cfg now t err, pyjwtDecode cfg.audience cfg.issuers now t = .error err →
      verifyToken cfg now t = none) ∧
    (∀ cfg now t c r, t.payload = some c → r ∈ cfg.required_scopes →
      r ∉ graphTokenScopes c → verifyToken cfg now t = none) ∧
    (∀ cfg now t, azureLoadAccessToken cfg now t = none ∨
      ∃ p, azureLoadAccessToken cfg now t = some p) ∧
    (∀ cfg now t, t.payload = none → azureLoadAccessToken cfg now t = none) ∧
    (∀ cfg now t, t.sigValid = false → azureLoadAccessToken cfg now t = none) := by
  refine ⟨?_, ?_, ?_, ?_, ?_, ?_⟩
  · intro cfg now t
    cases h : verifyToken cfg now t with
    | none => exact Or.inl rfl
    | some p => exact Or.inr ⟨p, rfl⟩
  · exact verifyToken_none_of_decode_error
  · exact verifyToken_none_of_missing_scope
  · intro cfg now t
    cases h : azureLoadAccessToken cfg now t with
    | none => exact Or.inl rfl
    | some p => exact Or.inr ⟨p, rfl⟩
  · exact azureLoad_none_of_no_payload
  · exact azureLoad_none_of_bad_sig

/-- C1 witness: an expired token makes `pyjwt.decode` raise internally and
`verify_token` returns `None`; a signature-invalid token is rejected by
the signature-verified strategy. -/
theorem claim_C1_witness :
    pyjwtDecode demoConfig.audience demoConfig.issuers 1000 expiredToken =
      .error .expiredSignature ∧
    verifyToken demoConfig 1000 expiredToken = none ∧
    JwtToken.sigValid { raw := "jwt", sigValid := false, payload := some azureDemoClaims } = false ∧
    azureLoadAccessToken azureDemoConfig 1000
      { raw := "jwt", sigValid := false, payload := some azureDemoClaims } = none := by
  refine ⟨rfl, ?_, rfl, ?_⟩
  · exact claim_C1_verify_never_raises.2.1 demoConfig 1000 expiredToken
      .expiredSignature rfl
  · exact claim_C1_verify_never_raises.2.2.2.2.2 azureDemoConfig 1000
      { raw := "jwt", sigValid := false, payload := some azureDemoClaims } rfl

/-- C2 counterexample: on a provider response carrying
`error`/`error_description` and no `access_token`, `_obo_exchange` does
not return an `ExchangeFailure` value — it raises a `RuntimeError`
(an exception propagating past its boundary) whose message carries
the provider fields. This refutes the claim that the result is a
returned failure value and "not a raised/unhandled error". -/
theorem claim_C2_counterexample :
    oboExchange oboErrorResponse = PyOutcome.raised
      "OBO token exchange failed: invalid_grant AADSTS50013 assertion audience mismatch" := by
  rfl

/-- C2 amended: for every provider response lacking an access token,
`_obo_exchange` raises a `RuntimeError` whose message carries the
provider error code and description (the literal string "None"
standing in for an absent field), and never returns a token; the raise
is surfaced by the hosting framework as a tool-level failure rather
than returned as a value. -/
theorem claim_C2_exchange_raises (r : MsalResult)
    (h : r.access_token = none) :
    oboExchange r = PyOutcome.raised (oboFailMsg r.error r.error_description) ∧
    ∀ t, oboExchange r ≠ PyOutcome.ok t := by
  obtain ⟨a, e, d⟩ := r
  cases a with
  | none => exact ⟨rfl, fun t hc => PyOutcome.noConfusion hc⟩
  | some v => exact Option.noConfusion h

/-- C2 witness: a response with no `access_token` and no error fields
raises with the generic "None None" message. -/
theorem claim_C2_witness :
    MsalResult.access_token oboEmptyResponse = none ∧
    oboExchange oboEmptyResponse =
      PyOutcome.raised "OBO token exchange failed: None None" :=
  ⟨rfl, by
    have h := claim_C2_exchange_raises oboEmptyResponse rfl
    exact h.1⟩

/-- C7: exchange success and failure are mutually exclusive: for every
provider response the outcome is exactly one of a returned token or a
raised failure, and a response carrying an access token — even
alongside error fields — yields only the token, with no error
information in the returned value. -/
theorem claim_C7_exchange_exclusive (r : MsalResult) :
    (∀ t, r.access_token = some t → oboExchange r = PyOutcome.ok t) ∧
    ((∃ t, oboExchange r = PyOutcome.ok t) ↔ ¬ ∃ m, oboExchange r = PyOutcome.raised m) := by
  obtain ⟨a, e, d⟩ := r
  cases a with
  | none =>
    refine ⟨fun t ht => Option.noConfusion ht, ?_⟩
    simp [oboExchange]
  | some v =>
    refine ⟨fun t ht => by rw [Option.some.injEq] at ht; subst ht; rfl, ?_⟩
    simp [oboExchange]

/-- C7 witness: a response containing both an access token and error
fields yields only the token. -/
theorem claim_C7_witness :
    MsalResult.access_token oboBothFieldsResponse = some "downstream-token" ∧
    oboExchange oboBothFieldsResponse = PyOutcome.ok "downstream-token" :=
  ⟨rfl, (claim_C7_exchange_exclusive oboBothFieldsResponse).1 "downstream-token" rfl⟩

/-- C3: in both strategies, a token whose (normalized, where applicable)
scope set misses any configured required scope is rejected: AND
semantics over `required_scopes`. -/
theorem claim_C3_and_scope_semantics :
    (∀ cfg now t c r, t.payload = some c → r ∈ cfg.required_scopes →
      r ∉ graphTokenScopes c → verifyToken cfg now t = none) ∧
    (∀ cfg now t c r, t.payload = some c → r ∈ cfg.required_scopes →
      r ∉ azureExtractScopes cfg c → azureLoadAccessToken cfg now t = none) :=
  ⟨verifyToken_none_of_missing_scope, azureLoad_none_of_missing_scope⟩

/-- C3 witness: a token carrying scopes containing only `User.Read` when
`User.Read` and `Mail.Read` are both required is rejected even though
`User.Read` is present. -/
theorem claim_C3_witness :
    "User.Read" ∈ graphTokenScopes shortScopeClaims ∧
    "Mail.Read" ∈ demoConfig.required_scopes ∧
    "Mail.Read" ∉ graphTokenScopes shortScopeClaims ∧
    verifyToken demoConfig 1000 shortScopeToken = none := by
  refine ⟨by decide, by decide, by decide, ?_⟩
  exact claim_C3_and_scope_semantics.1 demoConfig 1000 shortScopeToken
    shortScopeClaims "Mail.Read" rfl (by decide) (by decide)

/-- C4: a token whose `exp` claim is strictly below the current time is
rejected by the claims-only strategy; the comparison has no grace
window. -/
theorem claim_C4_expired_rejected (cfg : GraphVerifierConfig) (now : Int)
    (t : GraphToken) (c : Claims) (e : Int)
    (hp : t.payload = some c) (he : c.exp = some e) (hlt : e < now) :
    verifyToken cfg now t = none := by
  cases hv : verifyToken cfg now t with
  | none => rfl
  | some p =>
    exfalso
    rw [verifyToken_some_iff] at hv
    obtain ⟨-, c2, hd, -, -⟩ := hv
    rw [pyjwtDecode_ok_iff] at hd
    obtain ⟨hp2, ⟨e2, he2, hlt2⟩, -, -⟩ := hd
    rw [hp, Option.some.injEq] at hp2
    subst hp2
    rw [he, Option.some.injEq] at he2
    omega

/-- C4 witness: a token expired by one second (`exp = 999`, now `1000`)
is rejected. -/
theorem claim_C4_witness :
    Claims.exp expiredClaims = some 999 ∧ (999 : Int) < 1000 ∧
    verifyToken demoConfig 1000 expiredToken = none :=
  ⟨rfl, by decide,
    claim_C4_expired_rejected demoConfig 1000 expiredToken expiredClaims 999
      rfl rfl (by decide)⟩

/-- C5: scope normalization is total (a Lean function) and idempotent;
a scope without the namespace separator is prefixed with the namespace,
and an already-qualified scope is returned unchanged. -/
theorem claim_C5_normalize_idempotent (ns s : String) :
    normalizeScope ns (normalizeScope ns s) = normalizeScope ns s ∧
    (hasSlash s = false → normalizeScope ns s = ns ++ "/" ++ s) ∧
    (hasSlash s = true → normalizeScope ns s = s) := by
  refine ⟨normalizeScope_idem ns s, fun h => ?_, fun h => ?_⟩
  · simp [normalizeScope, h]
  · simp [normalizeScope, h]

/-- C5 witness: `access_as_user` with namespace `api://X` yields
`api://X/access_as_user`, and the qualified form is left unchanged. -/
theorem claim_C5_witness :
    hasSlash "access_as_user" = false ∧
    normalizeScope "api://X" "access_as_user" = "api://X/access_as_user" ∧
    hasSlash "api://X/access_as_user" = true ∧
    normalizeScope "api://X" "api://X/access_as_user" = "api://X/access_as_user" := by
  refine ⟨by decide, ?_, by decide, ?_⟩
  · have h := (claim_C5_normalize_idempotent "api://X" "access_as_user").2.1 (by decide)
    rw [h]
    decide
  · exact (claim_C5_normalize_idempotent "api://X" "api://X/access_as_user").2.2 (by decide)

/-- C9: the claims-only strategy rejects the empty token string
immediately, whatever the configuration, the clock and the (even fully
valid) decodable claims would have been. -/
theorem claim_C9_empty_token_rejected (cfg : GraphVerifierConfig)
    (now : Int) (t : GraphToken) (h : t.raw = "") :
    verifyToken cfg now t = none := by
  simp [verifyToken, h]

/-- C9 witness: the empty token is rejected although its payload holds
claims that would pass every configured check. -/
theorem claim_C9_witness :
    GraphToken.raw emptyRawToken = "" ∧
    GraphToken.payload emptyRawToken = some validClaims ∧
    verifyToken demoConfig 1000 { raw := "x", payload := some validClaims } ≠ none ∧
    verifyToken demoConfig 1000 emptyRawToken = none :=
  ⟨rfl, rfl, by decide, claim_C9_empty_token_rejected demoConfig 1000 emptyRawToken rfl⟩

/-- C10: a token passing the expiry, audience, issuer and scope checks of
the claims-only strategy while lacking both the `appid` and `azp` claims
yields an `AccessToken` whose `client_id` is the literal "unknown". -/
theorem claim_C10_unknown_client_id (cfg : GraphVerifierConfig) (now : Int)
    (t : GraphToken) (c : Claims) (e : Int) (i : String)
    (hraw : t.raw ≠ "") (hp : t.payload = some c)
    (he : c.exp = some e) (hlt : now < e)
    (ha : c.aud = some cfg.audience)
    (hi : c.iss = some i) (hii : i ∈ cfg.issuers)
    (hs : ∀ r ∈ cfg.required_scopes, r ∈ graphTokenScopes c)
    (happ : c.appid = none) (hazp : c.azp = none) :
    verifyToken cfg now t = some
      { token := t.raw, client_id := "unknown", scopes := graphTokenScopes c,
        expires_at := e, claims := c } := by
  rw [verifyToken_some_iff]
  refine ⟨hraw, c, ?_, hs, ?_⟩
  · rw [pyjwtDecode_ok_iff]
    exact ⟨hp, ⟨e, he, hlt⟩, ⟨i, hi, hii⟩, ha⟩
  · simp [pyOrStr, happ, hazp, he]

/-- C10 witness: a concrete token with neither `appid` nor `azp` passes
verification and its principal's client identifier is "unknown". -/
theorem claim_C10_witness :
    Claims.appid noClientClaims = none ∧ Claims.azp noClientClaims = none ∧
    verifyToken demoConfig 1000 noClientToken = some
      { token := "tok-noclient", client_id := "unknown",
        scopes := graphTokenScopes noClientClaims,
        expires_at := 4600, claims := noClientClaims } := by
  refine ⟨rfl, rfl, ?_⟩
  exact claim_C10_unknown_client_id demoConfig 1000 noClientToken noClientClaims
    4600 demoIssuer (by decide) rfl rfl (by decide) rfl rfl (by decide)
    (by decide) rfl rfl

/-- C6: a principal's scope set already reflects its strategy's
normalization: the claims-only strategy (which configures no namespace)
stores the token scope set unchanged, and the signature-verified
strategy stores the extracted scopes with every short-form scope
qualified by the configured namespace; re-normalizing a principal's
scope set is the identity. -/
theorem claim_C6_principal_scopes_normalized :
    (∀ cfg now t c p, t.payload = some c → verifyToken cfg now t = some p →
      p.scopes = graphTokenScopes c) ∧
    (∀ cfg now t c p, t.payload = some c →
      azureLoadAccessToken cfg now t = some p →
      p.scopes = azureExtractScopes cfg c ∧
      (cfg.ns ≠ "" →
        p.scopes.map (normalizeScope cfg.ns) = p.scopes ∧
        ∀ s ∈ baseExtractScopes c, normalizeScope cfg.ns s ∈ p.scopes)) := by
  constructor
  · intro cfg now t c p hp hv
    rw [verifyToken_some_iff] at hv
    obtain ⟨-, c2, hd, -, hrec⟩ := hv
    rw [pyjwtDecode_ok_iff] at hd
    obtain ⟨hp2, -, -, -⟩ := hd
    rw [hp, Option.some.injEq] at hp2
    subst hp2
    rw [hrec]
  · intro cfg now t c p hp hv
    rw [azureLoad_some_iff] at hv
    obtain ⟨c2, e2, i2, hp2, -, -, -, -, -, -, -, hrec⟩ := hv
    rw [hp, Option.some.injEq] at hp2
    subst hp2
    have hscopes : p.scopes = azureExtractScopes cfg c := by rw [hrec]
    refine ⟨hscopes, fun hns => ⟨?_, ?_⟩⟩
    · rw [hscopes]
      unfold azureExtractScopes
      rw [if_pos hns, List.map_map]
      exact List.map_congr_left (fun s _ => normalizeScope_idem cfg.ns s)
    · intro s hs
      rw [hscopes]
      unfold azureExtractScopes
      rw [if_pos hns]
      exact List.mem_map_of_mem (normalizeScope cfg.ns) hs

/-- C6 witness: the signature-verified strategy turns the short-form
token scope `access_as_user` into the qualified
`api://client-id/access_as_user` inside the principal, and
re-normalizing the principal's scopes changes nothing. -/
theorem claim_C6_witness :
    azureLoadAccessToken azureDemoConfig 1000 azureDemoToken =
      some azureDemoPrincipal ∧
    azureDemoPrincipal.scopes.map (normalizeScope "api://client-id") =
      azureDemoPrincipal.scopes ∧
    normalizeScope "api://client-id" "access_as_user" ∈ azureDemoPrincipal.scopes := by
  have h := (claim_C6_principal_scopes_normalized.2 azureDemoConfig 1000
    azureDemoToken azureDemoClaims azureDemoPrincipal rfl (by decide)).2 (by decide)
  exact ⟨by decide, h.1, h.2 "access_as_user" (by decide)⟩

/-- C8: the shared downstream client handle is constructed lazily exactly
once on first use (a second acquisition returns the same handle and
constructs nothing), and teardown releases it exactly once: after close
the handle is absent, closing again changes nothing, and closing when no
client was ever constructed performs no release. -/
theorem claim_C8_client_lifecycle (s : GraphClientState) (c : Nat) :
    (s.handle = none → (getGraphClient s).1.handle = some s.created ∧
      (getGraphClient s).1.created = s.created + 1 ∧
      (getGraphClient s).2 = s.created ∧
      (getGraphClient s).1.released = s.released) ∧
    (s.handle = some c → getGraphClient s = (s, c)) ∧
    (closeGraphClient s).handle = none ∧
    closeGraphClient (closeGraphClient s) = closeGraphClient s ∧
    (s.handle = some c → (closeGraphClient s).released = s.released + 1) ∧
    (s.handle = none → closeGraphClient s = s) := by
  obtain ⟨h, cr, re⟩ := s
  cases h with
  | none => simp [getGraphClient, closeGraphClient]
  | some c0 =>
    refine ⟨fun hc => Option.noConfusion hc, fun hc => ?_, rfl, rfl, fun hc => rfl,
      fun hc => Option.noConfusion hc⟩
    rw [Option.some.injEq] at hc
    subst hc
    rfl

/-- C8 witness: starting from the initial state, first use constructs the
client; closing releases it once; a repeated close and a close without
construction release nothing further. -/
theorem claim_C8_witness :
    (getGraphClient initialClientState).1.handle = some 0 ∧
    getGraphClient (getGraphClient initialClientState).1 =
      ((getGraphClient initialClientState).1, 0) ∧
    (closeGraphClient (getGraphClient initialClientState).1).released = 1 ∧
    closeGraphClient (closeGraphClient (getGraphClient initialClientState).1) =
      closeGraphClient (getGraphClient initialClientState).1 ∧
    closeGraphClient initialClientState = initialClientState := by
  have h := claim_C8_client_lifecycle (getGraphClient initialClientState).1 0
  have h0 := claim_C8_client_lifecycle initialClientState 0
  exact ⟨rfl, h.2.1 rfl, h.2.2.2.2.1 rfl, h.2.2.2.1, h0.2.2.2.2.2 rfl⟩
